import Mathlib

/-!
Verification development for the EasyDCP point-cloud phenotyping pipeline
(`phenotypy/base.py`).  The Python code is shallowly embedded: point
coordinates and colors are rationals (`ℚ`), numpy array operations become
list functions, and operations that raise Python exceptions (unfitted
models, indexing an empty result, reductions over empty arrays) return
`Option`/`Except` values.  External collaborators that are not part of the
repository (sklearn fitted models, open3d outlier filters and polygon
cropping, the voxel-statistics helper, scipy's `gaussian_kde`) enter the
embedding as explicit function parameters, exactly at the call sites where
`base.py` invokes them.
-/

/-! ## Numpy primitives

`np.percentile(a, q)` with the default linear interpolation, `np.median`,
`np.mean`, `np.unique`, `np.where(cond)[0]`, `np.linspace` and the Python
built-in `round` (banker's rounding), modelled over `List ℚ` / `List ℤ`.
Reductions of empty arrays, which raise or produce NaN in numpy, return
`none`.  `base.py` only ever calls `np.percentile` with the integer
percentages 5, 90 and (through `np.median`) 50, so the percentage is a
natural number here and the interpolation index arithmetic is exact.
-/

/-- Ascending sort of a rational list, as numpy's sort used by `np.percentile`. -/
def npSort (xs : List ℚ) : List ℚ := List.insertionSort (· ≤ ·) xs

/-- Linear-interpolation percentile of `np.percentile(xs, q)` for an integer
percentage `q`; `none` when the array is empty (numpy raises). -/
def npPercentile (xs : List ℚ) (q : ℕ) : Option ℚ :=
  match npSort xs with
  | [] => none
  | s =>
    let a : ℕ := q * (s.length - 1)
    let lo : ℕ := a / 100
    let hi : ℕ := (a + 99) / 100
    let frac : ℚ := (a : ℚ) / 100 - (lo : ℚ)
    some (s.getD lo 0 + frac * (s.getD hi 0 - s.getD lo 0))

/-- The median of `np.median`, which coincides with the 50th linear-interpolation
percentile. -/
def npMedian (xs : List ℚ) : Option ℚ := npPercentile xs 50

/-- Arithmetic mean; `none` for the empty array (numpy produces NaN). -/
def npMean (xs : List ℚ) : Option ℚ :=
  if xs.length = 0 then none else some (xs.sum / (xs.length : ℚ))

/-- Minimum of an array (`ndarray.min()`); `none` when empty (numpy raises). -/
def npMin (xs : List ℚ) : Option ℚ := (npSort xs).head?

/-- Maximum of an array (`ndarray.max()`); `none` when empty (numpy raises). -/
def npMax (xs : List ℚ) : Option ℚ := (npSort xs).getLast?

/-- Sorted distinct values, as `np.unique` returns them. -/
def npUnique (xs : List ℤ) : List ℤ :=
  (List.insertionSort (· ≤ ·) xs).dedup

/-- Index list `np.where(pred == k)[0].tolist()`: the ascending positions of
`pred` holding the value `k`. -/
def npWhereEq (pred : List ℤ) (k : ℤ) : List ℕ :=
  (List.range pred.length).filter (fun i => pred.getD i 0 == k)

/-- Evenly spaced grid of `np.linspace(a, b, num)`. -/
def linspace (a b : ℚ) (num : ℕ) : List ℚ :=
  (List.range num).map (fun i => a + (b - a) * (i : ℚ) / ((num : ℚ) - 1))

/-- Python's built-in `round`: nearest integer, ties to even. -/
def pythonRound (x : ℚ) : ℤ :=
  let f := ⌊x⌋
  let r := x - (f : ℚ)
  if r < 1 / 2 then f
  else if 1 / 2 < r then f + 1
  else if f % 2 = 0 then f else f + 1

/-! ## Classifier (`Classifier.__init__`, `build_training_array`, `predict`)

A training source is its already-loaded color array (the
`o3d.geometry.PointCloud` branch of `build_training_array`; the png/ply
branches only differ in how the colors are loaded, which is external I/O).
`Classifier.__init__` truncates `path_list`/`kind_list` to the shorter
length, stacks the training array from the truncated lists, and takes
`kind_set = set(kind_list)` from the *untruncated* `kind_list`.  The Python
set is modelled as `dedup` (only membership and distinctness are ever
used).  When `kind_set` has exactly one element the code constructs
`OneClassSVM()` and never fits it, so `predict` raises sklearn's
`NotFittedError`; the same holds for the `core='svm'` branch whose `SVC()`
is never fitted.  Only the `core='dtc'` multi-class branch fits a model;
its fitted decision function is the parameter `dtc` of `predict`.
-/

/-- RGB color triple in `[0,1]³`. -/
abbrev Color := ℚ × ℚ × ℚ

/-- Which sklearn core `Classifier.__init__` was asked for. -/
inductive Core where
  | dtc : Core
  | svm : Core
deriving DecidableEq, Repr

/-- State built by `Classifier.__init__`. -/
structure Classifier where
  path_list : List (List Color)
  kind_list : List ℤ
  train_data : List Color
  train_kind : List ℤ
  kind_set : List ℤ
deriving DecidableEq, Repr

/-- Construction of `Classifier.__init__`: truncate both input lists to the
shorter length, build the training array from the truncated lists, and take
the label set from the full `kind_list`. -/
def Classifier.build (pathList : List (List Color)) (kindList : List ℤ) : Classifier :=
  let n := min pathList.length kindList.length
  let pl := pathList.take n
  let kl := kindList.take n
  let pairs := pl.zip kl
  { path_list := pl
    kind_list := kl
    train_data := (pairs.map (fun pk => pk.1)).flatten
    train_kind := (pairs.map (fun pk => List.replicate pk.1.length pk.2)).flatten
    kind_set := kindList.dedup }

/-- Prediction of `Classifier.predict`.  A single-element `kind_set` means the
unfitted `OneClassSVM()`, and `core='svm'` means the unfitted `SVC()`; both
raise `NotFittedError` when asked to predict.  The fitted decision tree of
the `core='dtc'` multi-class branch is the function `dtc`. -/
def Classifier.predict (c : Classifier) (core : Core) (dtc : Color → ℤ)
    (vars : List Color) : Except String (List ℤ) :=
  if c.kind_set.length = 1 then .error "NotFittedError"
  else
    match core with
    | .dtc => .ok (vars.map dtc)
    | .svm => .error "NotFittedError"

/-- Loop body of `Plot.classifier_apply`: predict a label per point of the
cloud's color array, then for each `k` in `kind_set` select the point indices
predicted as `k` (`np.where(pred_result == k)[0]`). -/
def classifier_apply (c : Classifier) (core : Core) (dtc : Color → ℤ)
    (pcd_rgb : List Color) : Except String (List (ℤ × List ℕ)) :=
  (c.predict core dtc pcd_rgb).map (fun pred =>
    c.kind_set.map (fun k => (k, npWhereEq pred k)))

/-! ## Noise filter (`Plot.remove_noise`)

`pcd2voxel` (the external voxel-statistics helper from `phenotypy.pcd_tools`)
is applied once to the whole cloud `self.pcd` and yields
`(voxel_size, voxel_density)`; the open3d outlier filters
`remove_statistical_outlier(nb_neighbors, std_ratio)` and
`remove_radius_outlier(nb_points, radius)` are external and enter as the
function parameters `statRm` and `radRm` over an abstract cloud type.
The background class `-1` gets the statistical pass (neighbors
`round(voxel_density)`, ratio `0.01`) followed by the radius pass on the
intermediate result (neighbors `round(voxel_density*2)`, radius
`voxel_size`); every other class gets one radius pass (neighbors
`round(voxel_density)`, radius `voxel_size`).
-/

/-- Per-class body of the `Plot.remove_noise` loop. -/
def removeNoisePass {α : Type} (statRm : α → ℤ → ℚ → α) (radRm : α → ℤ → ℚ → α)
    (voxel_size voxel_density : ℚ) (k : ℤ) (cloud : α) : α :=
  if k = -1 then
    radRm (statRm cloud (pythonRound voxel_density) (1 / 100))
      (pythonRound (voxel_density * 2)) voxel_size
  else
    radRm cloud (pythonRound voxel_density) voxel_size

/-- Whole `Plot.remove_noise`: one `pcd2voxel` call on the whole cloud, then
the per-class passes over the classified dictionary (an association list keyed
by class label). -/
def remove_noise {α : Type} (pcd2voxel : α → ℚ × ℚ) (statRm radRm : α → ℤ → ℚ → α)
    (pcd : α) (pcd_classified : List (ℤ × α)) : List (ℤ × α) :=
  let vs := (pcd2voxel pcd).1
  let vd := (pcd2voxel pcd).2
  pcd_classified.map (fun kc => (kc.1, removeNoisePass statRm radRm vs vd kc.1 kc.2))

/-! ## Automatic segmentation (`Plot.auto_segmentation`)

After DBSCAN (external, open3d), each cluster gets the 2-feature descriptor
`[len(points) ** 0.5, calculate_xyz_volume(...)]` and a 2-means clustering
(external, sklearn `KMeans`) labels each descriptor 0 or 1.  The code then
compares the group means of the first feature:
`if class0.mean(axis=0)[0] > class1.mean(axis=0)[0]` picks group 0, else
group 1 — so on exact equality (and whenever a group is empty, where numpy
yields NaN and the comparison is False) group 1 is picked.  The surviving
plant clusters are then ordered by the `x` or `y` coordinate of their
centroids with `pandas.sort_values` and receive sequential instance ids in
that order.
-/

/-- Choice of plant group from `Plot.auto_segmentation`: the descriptor rows
`chars` are aligned with the KMeans `labels`; the result is the index list of
the chosen group (`np.where(km.labels_ == chosen)[0]`).  A comparison
involving the mean of an empty group is numpy-NaN and therefore `False`,
taking the `else` branch, group 1. -/
def plantGroup (chars : List (ℚ × ℚ)) (labels : List ℤ) : List ℕ :=
  let pairs := chars.zip labels
  let class0 := (pairs.filter (fun p => p.2 == 0)).map (fun p => p.1.1)
  let class1 := (pairs.filter (fun p => p.2 == 1)).map (fun p => p.1.1)
  let pick0 : Bool :=
    match npMean class0, npMean class1 with
    | some m0, some m1 => decide (m1 < m0)
    | _, _ => false
  if pick0 then npWhereEq labels 0 else npWhereEq labels 1

/-- Row of the `temp_df` data frame: a surviving cluster id with the `x` and
`y` coordinates of that cluster's centroid (`get_center()`). -/
structure SegRow where
  seg_id : ℕ
  x : ℚ
  y : ℚ
deriving DecidableEq, Repr

/-- The `name_by` sort key column (`'x'` or `'y'`). -/
inductive NameBy where
  | x : NameBy
  | y : NameBy
deriving DecidableEq, Repr

/-- Value of the sort key column for one row. -/
def SegRow.key (nb : NameBy) (r : SegRow) : ℚ :=
  match nb with
  | .x => r.x
  | .y => r.y

/-- The `temp_df.sort_values(by=name_by, ascending=ascending)` step followed by
sequential instance-id assignment: the `i`-th row of the result is instance
`i` (`class[k]-plant{i}`). -/
def sortValues (nb : NameBy) (ascending : Bool) (rows : List SegRow) : List SegRow :=
  if ascending then List.insertionSort (fun a b => a.key nb ≤ b.key nb) rows
  else List.insertionSort (fun a b => b.key nb ≤ a.key nb) rows

/-! ## Polygon segmentation (`Plot.shp_segmentation`)

The z-window of every cropping prism is computed once, before the class
loop, from the *whole raw plot cloud*: `axis_max = self.pcd_xyz[:, 2].max()`
and `axis_min = self.pcd_xyz[:, 2].min()` where `self.pcd_xyz` holds the
points of the plot's point cloud.  For every foreground class and every
named polygon a `SelectionPolygonVolume` is built with that z-window and the
polygon, and the class's cleaned cloud is cropped with it; open3d's
point-in-polygon test is the external parameter `inPoly`.  Every polygon
appends exactly one instance and one name `class[k]-{polygon}`, in the
polygons' own order, whether or not the crop is empty.
-/

/-- Point of a cloud: x, y, z in meters. -/
structure P3 where
  x : ℚ
  y : ℚ
  z : ℚ
deriving DecidableEq, Repr

/-- The `SelectionPolygonVolume` built for one polygon: the polygon name and
the z-window `axis_min`/`axis_max`. -/
structure PrismB where
  poly : String
  axis_min : ℚ
  axis_max : ℚ
deriving DecidableEq, Repr

/-- Crop of `SelectionPolygonVolume.crop_point_cloud`: keep the points whose
XY position lies in the named polygon and whose z lies in the window. -/
def cropPrism (inPoly : String → ℚ → ℚ → Bool) (poly : String)
    (axis_min axis_max : ℚ) (cloud : List P3) : List P3 :=
  cloud.filter (fun p => inPoly poly p.x p.y
    && decide (axis_min ≤ p.z) && decide (p.z ≤ axis_max))

/-- Instance name `class[{k}]-{plot_key}`. -/
def segName (k : ℤ) (plot_key : String) : String :=
  "class[" ++ toString k ++ "]-" ++ plot_key

/-- Whole `Plot.shp_segmentation` over the cleaned per-class clouds: the
background class is skipped, and each remaining class yields, per polygon in
order, the prism that was built and the cropped instance, plus the parallel
name list. -/
def shp_segmentation (inPoly : String → ℚ → ℚ → Bool) (pcd_xyz : List P3)
    (pcd_cleaned : List (ℤ × List P3)) (shp_keys : List String) :
    List (ℤ × (List (PrismB × List P3) × List String)) :=
  let axis_max := (npMax (pcd_xyz.map P3.z)).getD 0
  let axis_min := (npMin (pcd_xyz.map P3.z)).getD 0
  (pcd_cleaned.filter (fun kc => kc.1 != -1)).map (fun kc =>
    (kc.1,
      (shp_keys.map (fun pk =>
        (⟨pk, axis_min, axis_max⟩,
         cropPrism inPoly pk axis_min axis_max kc.2)),
       shp_keys.map (fun pk => segName kc.1 pk))))

/-! ## Plant traits (`Plant.get_percentile_height`, `Plant.get_projected_leaf_area`)

`get_percentile_height` works on the instance's z-values `z` and the
(background-clipped) ground cloud's z-values.  With `ground_ht == 'auto'`
it keeps the ground points strictly below the 5th percentile of `z`,
computes a 1000-point `np.linspace` grid over that sample's range and a
`gaussian_kde` histogram on it (scipy, external — the parameter `kde`),
binds the histogram to a variable that is never read again, and takes the
sample's median as the ground elevation; with a numeric `ground_ht` that
number is the elevation.  Then `plant_base = ele + container_ht`, the
instance points strictly above the base are kept, their 90th percentile is
the threshold, and the mean of the values strictly above the threshold is
the plant top; the result is `plant_top - plant_base`.  Each numpy
reduction over an empty array is a raised exception or NaN, i.e. `none`.
-/

/-- Fixed-vs-automatic ground elevation argument `ground_ht`. -/
inductive GroundHt where
  | auto : GroundHt
  | fixed : ℚ → GroundHt

/-- Embedding of `Plant.get_percentile_height`. -/
def get_percentile_height (kde : List ℚ → List ℚ → List ℚ)
    (z groundZ : List ℚ) (container_ht : ℚ) (ground_ht : GroundHt) : Option ℚ :=
  let eleOpt : Option ℚ :=
    match ground_ht with
    | .auto =>
      match npPercentile z 5 with
      | none => none
      | some p5 =>
        let ground_z := groundZ.filter (fun g => decide (g < p5))
        match npMin ground_z, npMax ground_z with
        | some gmin, some gmax =>
          let ele_ht_fine := linspace gmin gmax 1000
          let _ele_hist_num := kde ground_z ele_ht_fine
          npMedian ground_z
        | _, _ => none
    | .fixed v => some v
  match eleOpt with
  | none => none
  | some ele =>
    let plant_base := ele + container_ht
    let ele_z := z.filter (fun w => decide (plant_base < w))
    match npPercentile ele_z 90 with
    | none => none
    | some top10percentile =>
      match npMean (ele_z.filter (fun w => decide (top10percentile < w))) with
      | none => none
      | some plant_top => some (plant_top - plant_base)

/-- Embedding of `Plant.get_projected_leaf_area` over the flattened binary
raster: `np.unique(binary, return_counts=True)` yields the counts of the
sorted distinct pixel values, and the code indexes `number[1]` — an
`IndexError` (here `none`) when the raster holds fewer than two distinct
values, in particular when it has zero foreground pixels. -/
def get_projected_leaf_area (binary : List ℤ) (px_num_per_cm : ℚ) : Option ℚ :=
  let number := (npUnique binary).map (fun v => binary.count v)
  match number.get? 1 with
  | none => none
  | some fore_num => some ((fore_num : ℚ) * (1 / px_num_per_cm) ^ 2)

/-! ## Trait extraction loop (`Plot.get_traits`)

`Plot.get_traits` builds one `Plant` per segmented instance inside a plain
`for` loop with no exception handling, so the first instance whose trait
computation raises aborts the whole call.  The per-instance data an
instance contributes to the fallible steps that live in `base.py` are its
flattened binary raster with its resolution (for
`get_projected_leaf_area`) and its z-values with the ground cloud's
z-values (for `get_percentile_height`); the remaining traits come from
external geometry helpers and are not modelled.
-/

/-- Data of one segmented instance consumed by the fallible trait steps. -/
structure PlantInput where
  binary : List ℤ
  px_num_per_cm : ℚ
  z : List ℚ
  ground_z : List ℚ

/-- The fallible part of one `Plant.__init__` trait computation: projected
leaf area then percentile height, each raising (`none`) on degenerate
input. -/
def plantTraits (kde : List ℚ → List ℚ → List ℚ) (container_ht : ℚ)
    (ground_ht : GroundHt) (pin : PlantInput) : Option (ℚ × ℚ) :=
  match get_projected_leaf_area pin.binary pin.px_num_per_cm with
  | none => none
  | some pla =>
    match get_percentile_height kde pin.z pin.ground_z container_ht ground_ht with
    | none => none
    | some pctl_ht => some (pla, pctl_ht)

/-- The `Plot.get_traits` instance loop: every instance is processed in
order and an uncaught exception from one instance propagates, so the result
is all rows or nothing. -/
def get_traits (kde : List ℚ → List ℚ → List ℚ) (container_ht : ℚ)
    (ground_ht : GroundHt) : List PlantInput → Option (List (ℚ × ℚ))
  | [] => some []
  | pin :: rest =>
    match plantTraits kde container_ht ground_ht pin with
    | none => none
    | some row =>
      match get_traits kde container_ht ground_ht rest with
      | none => none
      | some rows => some (row :: rows)

/-! ## Side artifacts and the `write_ply` flag

Every optional side artifact of the pipeline is tagged here; the `run`
functions below pair each embedded operation's value with the artifacts the
corresponding `base.py` code writes.  `Plot.__init__` creates the output
directory only under `write_ply`; `classifier_apply`, `remove_noise`,
the per-instance writes of both segmentation strategies and the 3-D figures
of `get_traits` are all guarded by `write_ply` (the figures additionally by
`savefig`).  The per-class segmentation diagnostic image, however, is
written by an *unguarded* `draw_plot_seg_results` call at the end of every
`auto_segmentation` class iteration. -/

/-- Tag of one side artifact, keyed the way the source names the file. -/
inductive Artifact where
  /-- Output folder created by `make_dir` in `Plot.__init__`. -/
  | dirCreated : String → Artifact
  /-- Per-class classified cloud `class[k].ply`. -/
  | classPly : ℤ → Artifact
  /-- Per-class cleaned cloud `class[k]-rm_noise.ply`. -/
  | rmNoisePly : ℤ → Artifact
  /-- Per-instance segmented cloud `class[k]-plant{i}.ply` / `class[k]-{key}.ply`. -/
  | instancePly : ℤ → ℕ → Artifact
  /-- Per-class segmentation diagnostic image `{ply_name}-class[k].png`. -/
  | segDiagImage : ℤ → Artifact
  /-- Per-instance 3-D diagnostic figure. -/
  | fig3d : ℤ → ℕ → Artifact
deriving DecidableEq, Repr

/-- Modelled from the spec: `draw_plot_seg_results`
(`phenotypy.plotting.figure`, not under `src/`) renders the per-class
cluster scatter and writes it to its `savepath` argument — §4.3's "one
rendering artifact per class ... for visual QA". -/
def drawPlotSegResults (k : ℤ) : List Artifact :=
  [Artifact.segDiagImage k]

/-- Output-folder setup of `Plot.__init__`: result is `out_folder` and the
directory-creation effects. -/
def plotInitRun (write_ply : Bool) (output_path ply_name : String) :
    String × List Artifact :=
  if write_ply then
    (output_path ++ "/" ++ ply_name, [Artifact.dirCreated (output_path ++ "/" ++ ply_name)])
  else
    (output_path, [])

/-- `Plot.classifier_apply` with its guarded per-class ply writes. -/
def classifier_apply_run (write_ply : Bool) (c : Classifier) (core : Core)
    (dtc : Color → ℤ) (pcd_rgb : List Color) :
    Except String (List (ℤ × List ℕ)) × List Artifact :=
  match classifier_apply c core dtc pcd_rgb with
  | .error e => (.error e, [])
  | .ok parts =>
    (.ok parts, if write_ply then (parts.map (fun p => p.1)).map Artifact.classPly else [])

/-- `Plot.remove_noise` with its guarded per-class ply writes. -/
def remove_noise_run {α : Type} (write_ply : Bool) (pcd2voxel : α → ℚ × ℚ)
    (statRm radRm : α → ℤ → ℚ → α) (pcd : α) (pcd_classified : List (ℤ × α)) :
    List (ℤ × α) × List Artifact :=
  (remove_noise pcd2voxel statRm radRm pcd pcd_classified,
   if write_ply then (pcd_classified.map (fun kc => kc.1)).map Artifact.rmNoisePly else [])

/-- Tail of one `Plot.auto_segmentation` class iteration: the ordered
instance list, the guarded per-instance ply writes, and the unguarded
`draw_plot_seg_results` call. -/
def auto_seg_order_run (write_ply : Bool) (k : ℤ) (nb : NameBy) (ascending : Bool)
    (rows : List SegRow) : List SegRow × List Artifact :=
  (sortValues nb ascending rows,
   (if write_ply then (List.range rows.length).map (Artifact.instancePly k) else [])
     ++ drawPlotSegResults k)

/-- `Plot.get_traits` with its doubly guarded per-instance figure writes. -/
def get_traits_run (savefig write_ply : Bool) (kde : List ℚ → List ℚ → List ℚ)
    (container_ht : ℚ) (ground_ht : GroundHt) (k : ℤ) (instances : List PlantInput) :
    Option (List (ℚ × ℚ)) × List Artifact :=
  (get_traits kde container_ht ground_ht instances,
   if savefig && write_ply then (List.range instances.length).map (Artifact.fig3d k) else [])

/-! ## Helper lemmas -/

/-- Membership in a `np.where(pred == k)[0]` index list. -/
theorem mem_npWhereEq {pred : List ℤ} {k : ℤ} {i : ℕ} :
    i ∈ npWhereEq pred k ↔ i < pred.length ∧ pred.getD i 0 = k := by
  simp [npWhereEq, List.mem_filter, List.mem_range]

/-- Reading every position of a list through `getD` reproduces the list. -/
theorem map_getD_range (pred : List ℤ) :
    (List.range pred.length).map (fun i => pred.getD i 0) = pred := by
  apply List.ext_getElem
  · simp
  · intro n h1 h2
    simp [List.getD_eq_getElem _ _ h2, List.getElem?_eq_getElem h2]

/-- Size of one class subset of the partition: the number of positions of
`pred` holding `k`. -/
theorem length_npWhereEq (pred : List ℤ) (k : ℤ) :
    (npWhereEq pred k).length = pred.count k := by
  have hc : (npWhereEq pred k).length
      = List.countP (fun i => pred.getD i 0 == k) (List.range pred.length) := by
    simp [npWhereEq, List.countP_eq_length_filter]
  rw [hc, show List.countP (fun i => pred.getD i 0 == k) (List.range pred.length)
      = List.countP (fun x => x == k) ((List.range pred.length).map (fun i => pred.getD i 0)) by
    rw [List.countP_map]; rfl, map_getD_range]
  rfl

/-- Summing `if v = k then 1 else 0` over a list of candidate labels counts the
occurrences of `v`. -/
theorem sum_map_ite_eq_count (ks : List ℤ) (v : ℤ) :
    (ks.map (fun k => if v = k then (1 : ℕ) else 0)).sum = ks.count v := by
  induction ks with
  | nil => simp
  | cons a t ih =>
    simp only [List.map_cons, List.sum_cons, List.count_cons, ih]
    by_cases h : v = a
    · subst h; simp [Nat.add_comm]
    · simp [h, Ne.symm h]

/-- Splitting a sum over a pointwise sum of functions. -/
theorem sum_map_add (f g : ℤ → ℕ) (l : List ℤ) :
    (l.map (fun k => f k + g k)).sum = (l.map f).sum + (l.map g).sum := by
  induction l with
  | nil => simp
  | cons a t ih => simp [ih]; omega

/-- When every entry of `pred` lies in the duplicate-free label list `ks`, the
class subsets' sizes sum to the length of `pred`. -/
theorem sum_counts_eq_length (pred ks : List ℤ) (hk : ks.Nodup)
    (hv : ∀ x ∈ pred, x ∈ ks) :
    (ks.map (fun k => pred.count k)).sum = pred.length := by
  induction pred with
  | nil => simp [List.count_nil]
  | cons a t ih =>
    have hmap : ks.map (fun k => (a :: t).count k)
        = ks.map (fun k => t.count k + if a = k then 1 else 0) := by
      apply List.map_congr_left
      intro k _
      simp [List.count_cons]
    rw [hmap, sum_map_add (fun k => t.count k) (fun k => if a = k then 1 else 0) ks,
      ih (fun x hx => hv x (List.mem_cons_of_mem a hx)), sum_map_ite_eq_count,
      List.count_eq_one_of_mem hk (hv a (List.mem_cons_self a t))]
    simp

/-- A nonempty array has a minimum. -/
theorem npMin_isSome {xs : List ℚ} (h : xs ≠ []) : ∃ a, npMin xs = some a := by
  have hs : npSort xs ≠ [] := by
    intro hh
    apply h
    have := List.length_insertionSort (· ≤ ·) xs
    rw [show List.insertionSort (· ≤ ·) xs = npSort xs from rfl, hh] at this
    exact List.length_eq_zero.mp this.symm
  obtain ⟨b, L, hbl⟩ := List.exists_cons_of_ne_nil hs
  exact ⟨b, by simp [npMin, hbl]⟩

/-- A nonempty array has a maximum. -/
theorem npMax_isSome {xs : List ℚ} (h : xs ≠ []) : ∃ a, npMax xs = some a := by
  have hs : npSort xs ≠ [] := by
    intro hh
    apply h
    have := List.length_insertionSort (· ≤ ·) xs
    rw [show List.insertionSort (· ≤ ·) xs = npSort xs from rfl, hh] at this
    exact List.length_eq_zero.mp this.symm
  rcases Option.ne_none_iff_exists.mp (fun hn => hs (List.getLast?_eq_none_iff.mp hn))
    with ⟨a, ha⟩
  exact ⟨a, ha.symm⟩

/-- Empty-array base cases of the numpy reductions. -/
theorem npPercentile_nil (q : ℕ) : npPercentile [] q = none := rfl

/-- Minimum of the empty array is undefined. -/
theorem npMin_nil : npMin [] = none := rfl

/-- Maximum of the empty array is undefined. -/
theorem npMax_nil : npMax [] = none := rfl

/-- A defined median comes from a nonempty sample. -/
theorem npMedian_ne_nil {xs : List ℚ} {m : ℚ} (h : npMedian xs = some m) : xs ≠ [] := by
  intro hx
  subst hx
  simp [npMedian, npPercentile, npSort] at h

/-- Labels of the training array all come from the truncated `kind_list`. -/
theorem build_train_kind_sub (pathList : List (List Color)) (kindList : List ℤ) :
    ∀ k ∈ (Classifier.build pathList kindList).train_kind,
      k ∈ (Classifier.build pathList kindList).kind_list := by
  intro k hk
  simp only [Classifier.build, List.mem_flatten, List.mem_map] at hk
  obtain ⟨l, ⟨pk, hpk, rfl⟩, hkl⟩ := hk
  have := List.eq_of_mem_replicate hkl
  subst this
  exact (List.of_mem_zip hpk).2

/-- The truncated `kind_list` is contained in `kind_set`. -/
theorem build_kind_list_sub (pathList : List (List Color)) (kindList : List ℤ) :
    ∀ k ∈ (Classifier.build pathList kindList).kind_list,
      k ∈ (Classifier.build pathList kindList).kind_set := by
  intro k hk
  simp only [Classifier.build] at hk ⊢
  exact List.mem_dedup.mpr (List.mem_of_mem_take hk)

/-! ## Claim theorems -/

/-- C6.  `Plot.remove_noise` sends the background class `-1` through a
statistical-outlier pass with neighbor count `round(density)` and deviation
ratio `0.01` followed by a radius-outlier pass on the intermediate result
with neighbor count `round(density*2)` and radius `voxel_size`, and every
other class through exactly one radius-outlier pass with neighbor count
`round(density)` and radius `voxel_size`, where `voxel_size` and `density`
come from a single `pcd2voxel` call on the whole cloud. -/
theorem remove_noise_passes {α : Type} (pcd2voxel : α → ℚ × ℚ)
    (statRm radRm : α → ℤ → ℚ → α) (pcd : α) (pcd_classified : List (ℤ × α)) :
    (∀ cloud, removeNoisePass statRm radRm (pcd2voxel pcd).1 (pcd2voxel pcd).2 (-1) cloud
        = radRm (statRm cloud (pythonRound (pcd2voxel pcd).2) (1 / 100))
            (pythonRound ((pcd2voxel pcd).2 * 2)) (pcd2voxel pcd).1) ∧
    (∀ k cloud, k ≠ -1 →
      removeNoisePass statRm radRm (pcd2voxel pcd).1 (pcd2voxel pcd).2 k cloud
        = radRm cloud (pythonRound (pcd2voxel pcd).2) (pcd2voxel pcd).1) ∧
    remove_noise pcd2voxel statRm radRm pcd pcd_classified
      = pcd_classified.map (fun kc =>
          (kc.1, removeNoisePass statRm radRm (pcd2voxel pcd).1 (pcd2voxel pcd).2 kc.1 kc.2)) := by
  refine ⟨fun cloud => by simp [removeNoisePass], fun k cloud hk => by simp [removeNoisePass, hk],
    rfl⟩

/-- C6 witness: the non-background equation applied at class `5` with
concrete filters. -/
theorem remove_noise_passes_witness :
    removeNoisePass (fun (c : ℕ) _ _ => c + 1) (fun (c : ℕ) _ _ => c) 1 2 5 10 = 10 :=
  (remove_noise_passes (fun _ : ℕ => ((1 : ℚ), (2 : ℚ))) (fun c _ _ => c + 1)
    (fun c _ _ => c) 0 []).2.1 5 10 (by decide)

/-- C7 counterexample: with two clusters of equal descriptor means (both
groups' point-count feature lists are `[1]`), `auto_segmentation` picks
KMeans group 1, not group 0 as the claim states — `class0.mean > class1.mean`
is `False` on equality and the `else` branch is taken. -/
theorem plantGroup_tie_counterexample :
    plantGroup [(1, 0), (1, 0)] [0, 1] = npWhereEq [0, 1] 1 ∧
    npWhereEq [(0 : ℤ), 1] 1 = [1] ∧
    npWhereEq [(0 : ℤ), 1] 0 = [0] ∧
    ([1] : List ℕ) ≠ [0] := by
  refine ⟨?_, by decide, by decide, by decide⟩
  norm_num [plantGroup, npMean]

/-- C7 amended.  The KMeans group with the strictly larger mean of the
point-count feature is declared the plant group; on exact equality of the
two group means (and whenever a group mean is undefined) group 1 — the
second group — wins, not group 0. -/
theorem plantGroup_mean_rule (chars : List (ℚ × ℚ)) (labels : List ℤ) (m0 m1 : ℚ)
    (h0 : npMean (((chars.zip labels).filter (fun p => p.2 == 0)).map (fun p => p.1.1))
      = some m0)
    (h1 : npMean (((chars.zip labels).filter (fun p => p.2 == 1)).map (fun p => p.1.1))
      = some m1) :
    (m1 < m0 → plantGroup chars labels = npWhereEq labels 0) ∧
    (m0 ≤ m1 → plantGroup chars labels = npWhereEq labels 1) := by
  constructor
  · intro hlt
    simp [plantGroup, h0, h1, hlt]
  · intro hle
    simp [plantGroup, h0, h1, not_lt.mpr hle]

/-- C7 witness: a strictly larger group-0 mean (2 versus 1) selects group 0. -/
theorem plantGroup_mean_rule_witness :
    plantGroup [(2, 0), (1, 0)] [0, 1] = npWhereEq [0, 1] 0 := by
  have h := (plantGroup_mean_rule [(2, 0), (1, 0)] [0, 1] 2 1
    (by norm_num [npMean]) (by norm_num [npMean])).1 (by norm_num)
  exact h

/-- C10.  `Classifier.__init__` truncates `path_list` and `kind_list` to the
shorter length for the training array, but computes `kind_set` from the full
untruncated `kind_list`; training labels only come from the truncated part,
so `kind_set` may hold labels with no training sample, and a successful
`classifier_apply` still emits one class subset per `kind_set` label. -/
theorem classifier_build_spec (pathList : List (List Color)) (kindList : List ℤ) :
    (Classifier.build pathList kindList).path_list.length
        = min pathList.length kindList.length ∧
    (Classifier.build pathList kindList).kind_list.length
        = min pathList.length kindList.length ∧
    (Classifier.build pathList kindList).kind_set = kindList.dedup ∧
    (∀ k, k ∈ kindList → k ∈ (Classifier.build pathList kindList).kind_set) ∧
    (∀ k, k ∈ (Classifier.build pathList kindList).train_kind →
      k ∈ (Classifier.build pathList kindList).kind_list) ∧
    (∀ core dtc rgb parts,
      classifier_apply (Classifier.build pathList kindList) core dtc rgb = .ok parts →
      parts.map (fun p => p.1) = (Classifier.build pathList kindList).kind_set) := by
  refine ⟨?_, ?_, rfl, ?_, build_train_kind_sub pathList kindList, ?_⟩
  · simp [Classifier.build]
  · simp [Classifier.build]
  · intro k hk
    simp only [Classifier.build]
    exact List.mem_dedup.mpr hk
  · intro core dtc rgb parts happ
    unfold classifier_apply Classifier.predict at happ
    split at happ
    · simp [Except.map] at happ
    · cases core with
      | dtc =>
        simp only [Except.map] at happ
        cases happ
        have hcomp : ((fun p : ℤ × List ℕ => p.1)
            ∘ fun k => (k, npWhereEq (List.map dtc rgb) k)) = id := rfl
        rw [List.map_map, hcomp, List.map_id]
      | svm => simp [Except.map] at happ

/-- C10 witness: with one training source and two labels, the label `7` is in
`kind_set` yet has no training sample, and the lists are truncated to length
one. -/
theorem classifier_build_spec_witness :
    (7 : ℤ) ∈ (Classifier.build [[(1, 1, 1)]] [0, 7]).kind_set ∧
    (7 : ℤ) ∉ (Classifier.build [[(1, 1, 1)]] [0, 7]).train_kind ∧
    (Classifier.build [[(1, 1, 1)]] [0, 7]).path_list.length = 1 := by
  refine ⟨(classifier_build_spec [[(1, 1, 1)]] [0, 7]).2.2.2.1 7 (by decide), by decide, ?_⟩
  have h := (classifier_build_spec [[(1, 1, 1)]] [0, 7]).1
  simpa using h

/-- C1 counterexample: a classifier trained with a single class (`kind_set`
of size one) holds the never-fitted `OneClassSVM()`, so applying it to a
nonempty cloud raises `NotFittedError` instead of producing any partition —
the partition invariant cannot hold on the single-class path. -/
theorem classifier_apply_oneclass_counterexample :
    classifier_apply (Classifier.build [[(1, 1, 1)]] [0]) .dtc (fun _ => 0)
        [((1 : ℚ), (1 : ℚ), (1 : ℚ))] = .error "NotFittedError" ∧
    0 < [((1 : ℚ), (1 : ℚ), (1 : ℚ))].length := by
  exact ⟨rfl, by decide⟩

/-- C1 amended.  On the multi-class path (`kind_set` of size ≠ 1, decision
tree core), where the fitted tree predicts only labels present in the
training array, `classifier_apply` partitions the cloud: it emits one index
subset per `kind_set` label, every point index lies in exactly one subset,
and the subset sizes sum to the point count.  The single-class path never
reaches this partition (its model is unfitted, see the counterexample). -/
theorem classifier_apply_partition_multiclass (pathList : List (List Color))
    (kindList : List ℤ) (dtc : Color → ℤ) (rgb : List Color)
    (hmulti : (Classifier.build pathList kindList).kind_set.length ≠ 1)
    (hdtc : ∀ v, dtc v ∈ (Classifier.build pathList kindList).train_kind) :
    ∃ parts,
      classifier_apply (Classifier.build pathList kindList) .dtc dtc rgb = .ok parts ∧
      parts.map (fun p => p.1) = (Classifier.build pathList kindList).kind_set ∧
      (∀ i, i < rgb.length → parts.countP (fun p => decide (i ∈ p.2)) = 1) ∧
      (parts.map (fun p => p.2.length)).sum = rgb.length := by
  set c := Classifier.build pathList kindList with hc
  have hks : c.kind_set.Nodup := by
    rw [hc]
    simp only [Classifier.build]
    exact List.nodup_dedup kindList
  have hmem : ∀ v, dtc v ∈ c.kind_set := fun v =>
    build_kind_list_sub pathList kindList (dtc v) (build_train_kind_sub pathList kindList (dtc v) (hdtc v))
  have hpredmem : ∀ x ∈ rgb.map dtc, x ∈ c.kind_set := by
    intro x hx
    obtain ⟨v, _, rfl⟩ := List.mem_map.mp hx
    exact hmem v
  refine ⟨c.kind_set.map (fun k => (k, npWhereEq (rgb.map dtc) k)), ?_, ?_, ?_, ?_⟩
  · unfold classifier_apply Classifier.predict
    rw [if_neg hmulti]
    rfl
  · rw [List.map_map]
    have hcomp : ((fun p : ℤ × List ℕ => p.1)
        ∘ fun k => (k, npWhereEq (rgb.map dtc) k)) = id := rfl
    rw [hcomp, List.map_id]
  · intro i hi
    have hlen : i < (rgb.map dtc).length := by simpa using hi
    rw [List.countP_map]
    have heq : List.countP ((fun p : ℤ × List ℕ => decide (i ∈ p.2))
          ∘ fun k => (k, npWhereEq (rgb.map dtc) k)) c.kind_set
        = List.countP (fun k => (rgb.map dtc).getD i 0 == k) c.kind_set := by
      apply List.countP_congr
      intro k _
      show decide (i ∈ npWhereEq (rgb.map dtc) k) = true
          ↔ ((rgb.map dtc).getD i 0 == k) = true
      simp [mem_npWhereEq, hlen, hi]
    rw [heq]
    have hcount : List.countP (fun k => (rgb.map dtc).getD i 0 == k) c.kind_set
        = c.kind_set.count ((rgb.map dtc).getD i 0) := by
      rw [show c.kind_set.count ((rgb.map dtc).getD i 0)
          = List.countP (fun x => x == (rgb.map dtc).getD i 0) c.kind_set from rfl]
      apply List.countP_congr
      intro k _
      simp only [beq_iff_eq]
      exact ⟨Eq.symm, Eq.symm⟩
    rw [hcount]
    apply List.count_eq_one_of_mem hks
    have : (rgb.map dtc).getD i 0 = (rgb.map dtc)[i] := List.getD_eq_getElem _ _ hlen
    rw [this]
    exact hpredmem _ (List.getElem_mem hlen)
  · rw [List.map_map]
    have hcomp : ((fun p : ℤ × List ℕ => p.2.length)
        ∘ fun k => (k, npWhereEq (rgb.map dtc) k))
        = fun k => (npWhereEq (rgb.map dtc) k).length := rfl
    rw [hcomp]
    have hlens : c.kind_set.map (fun k => (npWhereEq (rgb.map dtc) k).length)
        = c.kind_set.map (fun k => (rgb.map dtc).count k) := by
      apply List.map_congr_left
      intro k _
      exact length_npWhereEq (rgb.map dtc) k
    rw [hlens, sum_counts_eq_length (rgb.map dtc) c.kind_set hks hpredmem]
    simp

/-- C1 witness: a two-class classifier with a constant fitted tree partitions
a two-point cloud. -/
theorem classifier_apply_partition_witness :
    ∃ parts,
      classifier_apply (Classifier.build [[(0, 0, 0)], [(1, 1, 1)]] [-1, 0]) .dtc
          (fun _ => 0) [((1 : ℚ), (0 : ℚ), (0 : ℚ)), ((0 : ℚ), (1 : ℚ), (0 : ℚ))] = .ok parts ∧
      parts.map (fun p => p.1)
          = (Classifier.build [[(0, 0, 0)], [(1, 1, 1)]] [-1, 0]).kind_set ∧
      (∀ i, i < [((1 : ℚ), (0 : ℚ), (0 : ℚ)), ((0 : ℚ), (1 : ℚ), (0 : ℚ))].length →
        parts.countP (fun p => decide (i ∈ p.2)) = 1) ∧
      (parts.map (fun p => p.2.length)).sum
          = [((1 : ℚ), (0 : ℚ), (0 : ℚ)), ((0 : ℚ), (1 : ℚ), (0 : ℚ))].length := by
  apply classifier_apply_partition_multiclass
  · decide
  · intro v
    decide

/-- C2.  `Plant.get_percentile_height` computes, in `'auto'` mode, the ground
sample as the ground z-values strictly below the 5th percentile of the
instance z-values, the elevation as that sample's median (the kernel-density
estimate over the 1000-point grid is computed but never affects the result:
the output is identical for any two `kde` functions), the plant base as
elevation plus container height, the plant top as the mean of the instance
z-values strictly above the 90th percentile of those strictly above the
base, and returns top minus base; in fixed mode the supplied elevation
replaces the median. -/
theorem get_percentile_height_spec :
    (∀ (kde : List ℚ → List ℚ → List ℚ) (z groundZ : List ℚ)
        (container_ht p5 med t10 top : ℚ),
      npPercentile z 5 = some p5 →
      groundZ.filter (fun g => decide (g < p5)) ≠ [] →
      npMedian (groundZ.filter (fun g => decide (g < p5))) = some med →
      npPercentile (z.filter (fun w => decide (med + container_ht < w))) 90 = some t10 →
      npMean ((z.filter (fun w => decide (med + container_ht < w))).filter
          (fun w => decide (t10 < w))) = some top →
      get_percentile_height kde z groundZ container_ht .auto
        = some (top - (med + container_ht))) ∧
    (∀ (kde kde2 : List ℚ → List ℚ → List ℚ) (z groundZ : List ℚ)
        (container_ht : ℚ) (ground_ht : GroundHt),
      get_percentile_height kde z groundZ container_ht ground_ht
        = get_percentile_height kde2 z groundZ container_ht ground_ht) ∧
    (∀ (kde : List ℚ → List ℚ → List ℚ) (z groundZ : List ℚ)
        (container_ht v t10 top : ℚ),
      npPercentile (z.filter (fun w => decide (v + container_ht < w))) 90 = some t10 →
      npMean ((z.filter (fun w => decide (v + container_ht < w))).filter
          (fun w => decide (t10 < w))) = some top →
      get_percentile_height kde z groundZ container_ht (.fixed v)
        = some (top - (v + container_ht))) := by
  refine ⟨?_, ?_, ?_⟩
  · intro kde z groundZ container_ht p5 med t10 top hp5 hne hmed ht10 htop
    obtain ⟨gmin, hmin⟩ := npMin_isSome hne
    obtain ⟨gmax, hmax⟩ := npMax_isSome hne
    rw [List.filter_filter] at htop
    simp [get_percentile_height, hp5, hmin, hmax, hmed, ht10, htop]
  · intro kde kde2 z groundZ container_ht ground_ht
    cases ground_ht with
    | fixed v => rfl
    | auto =>
      cases hp5 : npPercentile z 5 with
      | none => simp [get_percentile_height, hp5]
      | some p5 =>
        cases hmin : npMin (groundZ.filter (fun g => decide (g < p5))) with
        | none => simp [get_percentile_height, hp5, hmin]
        | some gmin =>
          cases hmax : npMax (groundZ.filter (fun g => decide (g < p5))) with
          | none => simp [get_percentile_height, hp5, hmin, hmax]
          | some gmax => simp [get_percentile_height, hp5, hmin, hmax]
  · intro kde z groundZ container_ht v t10 top ht10 htop
    rw [List.filter_filter] at htop
    simp [get_percentile_height, ht10, htop]

/-- C2 witness: for instance z-values `[1, 2, 3]`, ground z-values `[0, 1]`
and container height 0, the 5th percentile is `11/10`, the ground sample is
`[0, 1]` with median `1/2`, the base is `1/2`, the 90th percentile above the
base is `14/5`, the top is `3`, and the height is `5/2` — independent of the
kernel-density function. -/
theorem get_percentile_height_spec_witness :
    get_percentile_height (fun _ _ => []) [1, 2, 3] [0, 1] 0 .auto = some (5 / 2) := by
  have h := get_percentile_height_spec.1 (fun _ _ => []) [1, 2, 3] [0, 1] 0
    (11 / 10) (1 / 2) (14 / 5) 3
    (by norm_num [npPercentile, npSort, List.insertionSort, List.orderedInsert])
    (by intro h; norm_num at h; exact List.cons_ne_nil 0 [1] h)
    (by norm_num [npMedian, npPercentile, npSort, List.insertionSort, List.orderedInsert])
    (by norm_num [npPercentile, npSort, List.insertionSort, List.orderedInsert])
    (by norm_num [npMean])
  rw [h]
  norm_num

/-- C3.  `Plant.get_percentile_height` yields an undefined result (`none`,
never a number such as 0) whenever the ground sample below the instance's
5th percentile is empty (in `'auto'` mode the code's `ground_z.min()` raises
there) or no instance point lies strictly above the plant base (the 90th
percentile of an empty selection), in either elevation mode. -/
theorem get_percentile_height_failure :
    (∀ (kde : List ℚ → List ℚ → List ℚ) (z groundZ : List ℚ) (container_ht p5 : ℚ),
      npPercentile z 5 = some p5 →
      groundZ.filter (fun g => decide (g < p5)) = [] →
      get_percentile_height kde z groundZ container_ht .auto = none) ∧
    (∀ (kde : List ℚ → List ℚ → List ℚ) (z groundZ : List ℚ) (container_ht p5 med : ℚ),
      npPercentile z 5 = some p5 →
      npMedian (groundZ.filter (fun g => decide (g < p5))) = some med →
      z.filter (fun w => decide (med + container_ht < w)) = [] →
      get_percentile_height kde z groundZ container_ht .auto = none) ∧
    (∀ (kde : List ℚ → List ℚ → List ℚ) (z groundZ : List ℚ) (container_ht v : ℚ),
      z.filter (fun w => decide (v + container_ht < w)) = [] →
      get_percentile_height kde z groundZ container_ht (.fixed v) = none) := by
  refine ⟨?_, ?_, ?_⟩
  · intro kde z groundZ container_ht p5 hp5 hempty
    simp [get_percentile_height, hp5, hempty, npMin_nil, npMax_nil]
  · intro kde z groundZ container_ht p5 med hp5 hmed hempty
    have hne : groundZ.filter (fun g => decide (g < p5)) ≠ [] := npMedian_ne_nil hmed
    obtain ⟨gmin, hmin⟩ := npMin_isSome hne
    obtain ⟨gmax, hmax⟩ := npMax_isSome hne
    simp [get_percentile_height, hp5, hmin, hmax, hmed, hempty, npPercentile_nil]
  · intro kde z groundZ container_ht v hempty
    simp [get_percentile_height, hempty, npPercentile_nil]

/-- C3 witness: an instance whose ground sample is empty (`[5]` has no value
below `11/10`) and a fixed-elevation instance with no point above the base
both produce `none`. -/
theorem get_percentile_height_failure_witness :
    get_percentile_height (fun _ _ => []) [1, 2, 3] [5] 0 .auto = none ∧
    get_percentile_height (fun _ _ => []) [1] [0] 0 (.fixed 5) = none := by
  constructor
  · exact get_percentile_height_failure.1 (fun _ _ => []) [1, 2, 3] [5] 0 (11 / 10)
      (by norm_num [npPercentile, npSort, List.insertionSort, List.orderedInsert])
      (by norm_num)
  · exact get_percentile_height_failure.2.2 (fun _ _ => []) [1] [0] 0 5 (by norm_num)

/-- Concrete evaluation of `plantTraits` on a well-formed instance: raster
`[0, 1]` at one pixel per cm, z-values `[1, 2, 3]`, ground z-values
`[0, 1]`, automatic ground elevation. -/
theorem plantTraits_good_eval :
    plantTraits (fun _ _ => []) 0 .auto ⟨[0, 1], 1, [1, 2, 3], [0, 1]⟩
      = some (1, 5 / 2) := by
  norm_num [plantTraits, get_projected_leaf_area, get_percentile_height, npUnique,
    npPercentile, npMedian, npMean, npMin, npMax, npSort, List.insertionSort,
    List.orderedInsert, List.dedup]

/-- An all-background raster aborts `plantTraits` with an `IndexError`. -/
theorem plantTraits_bad_eval :
    plantTraits (fun _ _ => []) 0 .auto ⟨[0, 0], 1, [1, 2, 3], [0, 1]⟩ = none := by
  norm_num [plantTraits, get_projected_leaf_area, npUnique, List.insertionSort,
    List.orderedInsert, List.dedup]

/-- C4 counterexample: in a plot with two instances where the first has an
all-background raster (a real `IndexError` inside
`get_projected_leaf_area`), `get_traits` yields nothing at all — the second
instance, which on its own computes fine, is never reached and no sentinel
row is recorded for the failing one. -/
theorem get_traits_abort_counterexample :
    get_traits (fun _ _ => []) 0 .auto
        [⟨[0, 0], 1, [1, 2, 3], [0, 1]⟩, ⟨[0, 1], 1, [1, 2, 3], [0, 1]⟩] = none ∧
    plantTraits (fun _ _ => []) 0 .auto ⟨[0, 1], 1, [1, 2, 3], [0, 1]⟩
        = some (1, 5 / 2) ∧
    get_traits (fun _ _ => []) 0 .auto [⟨[0, 1], 1, [1, 2, 3], [0, 1]⟩]
        = some [(1, 5 / 2)] := by
  refine ⟨?_, plantTraits_good_eval, ?_⟩
  · simp [get_traits, plantTraits_bad_eval]
  · simp [get_traits, plantTraits_good_eval]

/-- C4 amended.  `Plot.get_traits` has no per-instance exception handling:
if any instance's trait computation fails, the whole call aborts and no row
— sentinel or otherwise — is produced for any instance; only when every
instance succeeds does the loop return one row per instance. -/
theorem get_traits_abort (kde : List ℚ → List ℚ → List ℚ) (container_ht : ℚ)
    (ground_ht : GroundHt) :
    (∀ (instances : List PlantInput) (pin : PlantInput), pin ∈ instances →
      plantTraits kde container_ht ground_ht pin = none →
      get_traits kde container_ht ground_ht instances = none) ∧
    (∀ instances : List PlantInput,
      (∀ pin ∈ instances, ∃ r, plantTraits kde container_ht ground_ht pin = some r) →
      ∃ rows, get_traits kde container_ht ground_ht instances = some rows ∧
        rows.length = instances.length) := by
  constructor
  · intro instances
    induction instances with
    | nil => intro pin hpin; exact absurd hpin (List.not_mem_nil pin)
    | cons a t ih =>
      intro pin hpin hnone
      rcases List.mem_cons.mp hpin with rfl | hmem
      · simp [get_traits, hnone]
      · cases ha : plantTraits kde container_ht ground_ht a with
        | none => simp [get_traits, ha]
        | some row => simp [get_traits, ha, ih pin hmem hnone]
  · intro instances
    induction instances with
    | nil => exact fun _ => ⟨[], rfl, rfl⟩
    | cons a t ih =>
      intro hall
      obtain ⟨r, hr⟩ := hall a (List.mem_cons_self a t)
      obtain ⟨rows, hrows, hlen⟩ := ih (fun pin hpin => hall pin (List.mem_cons_of_mem a hpin))
      exact ⟨r :: rows, by simp [get_traits, hr, hrows], by simp [hlen]⟩

/-- C4 witness: the success branch applied to a singleton instance list. -/
theorem get_traits_abort_witness :
    ∃ rows, get_traits (fun _ _ => []) 0 .auto [⟨[0, 1], 1, [1, 2, 3], [0, 1]⟩] = some rows ∧
      rows.length = 1 := by
  have h := (get_traits_abort (fun _ _ => []) 0 .auto).2 [⟨[0, 1], 1, [1, 2, 3], [0, 1]⟩]
    (by
      intro pin hpin
      rcases List.mem_singleton.mp hpin with rfl
      exact ⟨(1, 5 / 2), plantTraits_good_eval⟩)
  simpa using h

/-- C5 counterexample: in a plot whose raw cloud has a background point at
`z = 2` while class 0's cleaned cloud only spans `z ∈ [0, 1]`, the cropping
prism is built with `axis_max = 2` — the z-range of the whole plot cloud
`self.pcd_xyz`, not the z-range (max `1`) of that class's cleaned cloud as
the claim states. -/
theorem shp_prism_counterexample :
    shp_segmentation (fun _ _ _ => true) [⟨0, 0, 0⟩, ⟨0, 0, 1⟩, ⟨5, 5, 2⟩]
        [(0, [⟨0, 0, 0⟩, ⟨0, 0, 1⟩])] ["plot1"]
      = [(0, ([(⟨"plot1", 0, 2⟩, [⟨0, 0, 0⟩, ⟨0, 0, 1⟩])], [segName 0 "plot1"]))] ∧
    npMax ([(⟨0, 0, 0⟩ : P3), ⟨0, 0, 1⟩].map P3.z) = some 1 ∧
    ((2 : ℚ)) ≠ ((1 : ℚ)) := by
  refine ⟨?_, by decide, by decide⟩
  decide

/-- C5 amended.  For every foreground class of `Plot.shp_segmentation`, each
named polygon yields exactly one instance, in polygon order, named
`class[k]-{polygon}` (an empty crop still yields an instance), and the
cropping prism is a vertical prism whose z-window is the z-range of the
*whole plot cloud* `self.pcd_xyz` — not of that class's cleaned cloud; the
two windows give the same cropped points since each class's cleaned cloud
lies inside the plot cloud's z-range, but the prisms differ. -/
theorem shp_segmentation_spec (inPoly : String → ℚ → ℚ → Bool) (pcd_xyz : List P3)
    (pcd_cleaned : List (ℤ × List P3)) (shp_keys : List String) (k : ℤ) (cl : List P3)
    (hk : (k, cl) ∈ pcd_cleaned) (hbg : k ≠ -1) :
    (k, (shp_keys.map (fun pk =>
          ((⟨pk, (npMin (pcd_xyz.map P3.z)).getD 0, (npMax (pcd_xyz.map P3.z)).getD 0⟩ : PrismB),
           cropPrism inPoly pk ((npMin (pcd_xyz.map P3.z)).getD 0)
             ((npMax (pcd_xyz.map P3.z)).getD 0) cl)),
        shp_keys.map (fun pk => segName k pk)))
      ∈ shp_segmentation inPoly pcd_xyz pcd_cleaned shp_keys ∧
    (shp_keys.map (fun pk =>
        ((⟨pk, (npMin (pcd_xyz.map P3.z)).getD 0, (npMax (pcd_xyz.map P3.z)).getD 0⟩ : PrismB),
         cropPrism inPoly pk ((npMin (pcd_xyz.map P3.z)).getD 0)
           ((npMax (pcd_xyz.map P3.z)).getD 0) cl))).length = shp_keys.length := by
  constructor
  · unfold shp_segmentation
    apply List.mem_map.mpr
    refine ⟨(k, cl), ?_, rfl⟩
    apply List.mem_filter.mpr
    exact ⟨hk, by simpa using hbg⟩
  · simp

/-- C5 witness: one background and one foreground class, one polygon. -/
theorem shp_segmentation_spec_witness :
    ((0 : ℤ), ([((⟨"p", 0, 2⟩ : PrismB),
        cropPrism (fun _ _ _ => true) "p" 0 2 [⟨0, 0, 0⟩, ⟨0, 0, 1⟩])],
      [segName 0 "p"]))
      ∈ shp_segmentation (fun _ _ _ => true) [⟨0, 0, 0⟩, ⟨0, 0, 1⟩, ⟨5, 5, 2⟩]
          [(-1, [⟨5, 5, 2⟩]), (0, [⟨0, 0, 0⟩, ⟨0, 0, 1⟩])] ["p"] := by
  have h := (shp_segmentation_spec (fun _ _ _ => true) [⟨0, 0, 0⟩, ⟨0, 0, 1⟩, ⟨5, 5, 2⟩]
    [(-1, [⟨5, 5, 2⟩]), (0, [⟨0, 0, 0⟩, ⟨0, 0, 1⟩])] ["p"] 0 [⟨0, 0, 0⟩, ⟨0, 0, 1⟩]
    (by decide) (by decide)).1
  have hmin : (npMin ([(⟨0, 0, 0⟩ : P3), ⟨0, 0, 1⟩, ⟨5, 5, 2⟩].map P3.z)).getD 0 = 0 := by
    decide
  have hmax : (npMax ([(⟨0, 0, 0⟩ : P3), ⟨0, 0, 1⟩, ⟨5, 5, 2⟩].map P3.z)).getD 0 = 2 := by
    decide
  simpa [hmin, hmax] using h

/-- C8.  After `auto_segmentation` sorts the surviving plant clusters by the
chosen centroid coordinate and assigns sequential instance ids in that
order, the chosen coordinate is non-decreasing across instance ids when
`ascending=True` and non-increasing when `ascending=False`. -/
theorem auto_seg_order_monotone (nb : NameBy) (ascending : Bool) (rows : List SegRow)
    (i j : Fin (sortValues nb ascending rows).length) (hij : i ≤ j) :
    if ascending then
      ((sortValues nb ascending rows).get i).key nb
        ≤ ((sortValues nb ascending rows).get j).key nb
    else
      ((sortValues nb ascending rows).get j).key nb
        ≤ ((sortValues nb ascending rows).get i).key nb := by
  cases ascending with
  | true =>
    simp only [if_pos]
    haveI : IsTotal SegRow (fun a b => a.key nb ≤ b.key nb) :=
      ⟨fun a b => le_total (a.key nb) (b.key nb)⟩
    haveI : IsTrans SegRow (fun a b => a.key nb ≤ b.key nb) :=
      ⟨fun _ _ _ hab hbc => le_trans hab hbc⟩
    haveI : IsRefl SegRow (fun a b => a.key nb ≤ b.key nb) := ⟨fun a => le_refl (a.key nb)⟩
    have hsorted := List.sorted_insertionSort (fun a b => a.key nb ≤ b.key nb) rows
    exact hsorted.rel_get_of_le hij
  | false =>
    simp only [Bool.false_eq_true, if_neg, not_false_iff]
    haveI : IsTotal SegRow (fun a b => b.key nb ≤ a.key nb) :=
      ⟨fun a b => le_total (b.key nb) (a.key nb)⟩
    haveI : IsTrans SegRow (fun a b => b.key nb ≤ a.key nb) :=
      ⟨fun _ _ _ hab hbc => le_trans hbc hab⟩
    haveI : IsRefl SegRow (fun a b => b.key nb ≤ a.key nb) := ⟨fun a => le_refl (a.key nb)⟩
    have hsorted := List.sorted_insertionSort (fun a b => b.key nb ≤ a.key nb) rows
    exact hsorted.rel_get_of_le hij

/-- C8 witness: two clusters with x centroids 2 and 1 sorted ascending by x;
instance 0's x is ≤ instance 1's x. -/
theorem auto_seg_order_monotone_witness :
    ((sortValues .x true [⟨0, 2, 0⟩, ⟨1, 1, 0⟩]).get
        ⟨0, by decide⟩).key .x
      ≤ ((sortValues .x true [⟨0, 2, 0⟩, ⟨1, 1, 0⟩]).get
        ⟨1, by decide⟩).key .x := by
  have h := auto_seg_order_monotone .x true [⟨0, 2, 0⟩, ⟨1, 1, 0⟩]
    ⟨0, by decide⟩ ⟨1, by decide⟩ (by decide)
  simpa using h

/-- C9 counterexample: with `write_ply = False`, one `auto_segmentation`
class iteration still emits the per-class segmentation diagnostic image —
the `draw_plot_seg_results` call is not guarded by the flag — so "no
optional side artifacts are produced" fails. -/
theorem write_flag_counterexample :
    (auto_seg_order_run false 0 .x true []).2 = [Artifact.segDiagImage 0] ∧
    (auto_seg_order_run false 0 .x true []).2 ≠ [] := by
  exact ⟨rfl, by decide⟩

/-- C9 amended.  With the write flag disabled, `Plot.__init__` creates no
output directory and leaves `out_folder = output_path`, and the per-class
classified clouds, per-class cleaned clouds, per-instance segmented clouds
and per-instance 3-D figures are all suppressed, with every computed value
identical to a run with the flag enabled; however the per-class
segmentation diagnostic image of `auto_segmentation` is still produced,
because `draw_plot_seg_results` is called outside the flag guard. -/
theorem write_flag_gating {α : Type} (savefig : Bool) (output_path ply_name : String)
    (c : Classifier) (core : Core) (dtc : Color → ℤ) (pcd_rgb : List Color)
    (pcd2voxel : α → ℚ × ℚ) (statRm radRm : α → ℤ → ℚ → α) (pcd : α)
    (pcd_classified : List (ℤ × α)) (k : ℤ) (nb : NameBy) (ascending : Bool)
    (rows : List SegRow) (kde : List ℚ → List ℚ → List ℚ) (container_ht : ℚ)
    (ground_ht : GroundHt) (instances : List PlantInput) :
    plotInitRun false output_path ply_name = (output_path, []) ∧
    (classifier_apply_run false c core dtc pcd_rgb).2 = [] ∧
    (∀ w, (classifier_apply_run w c core dtc pcd_rgb).1
      = classifier_apply c core dtc pcd_rgb) ∧
    (remove_noise_run false pcd2voxel statRm radRm pcd pcd_classified).2 = [] ∧
    (∀ w, (remove_noise_run w pcd2voxel statRm radRm pcd pcd_classified).1
      = remove_noise pcd2voxel statRm radRm pcd pcd_classified) ∧
    (get_traits_run savefig false kde container_ht ground_ht k instances).2 = [] ∧
    (∀ w s, (get_traits_run s w kde container_ht ground_ht k instances).1
      = get_traits kde container_ht ground_ht instances) ∧
    (∀ w, (auto_seg_order_run w k nb ascending rows).1 = sortValues nb ascending rows) ∧
    (auto_seg_order_run false k nb ascending rows).2 = [Artifact.segDiagImage k] := by
  refine ⟨rfl, ?_, ?_, rfl, fun _ => rfl, by simp [get_traits_run], fun _ _ => rfl,
    fun _ => rfl, by simp [auto_seg_order_run, drawPlotSegResults]⟩
  · unfold classifier_apply_run
    cases h : classifier_apply c core dtc pcd_rgb with
    | error e => rfl
    | ok parts => simp
  · intro w
    unfold classifier_apply_run
    cases h : classifier_apply c core dtc pcd_rgb with
    | error e => rfl
    | ok parts => rfl
